import Mathlib

/-!
Shallow embedding of `src/specim/specfuncs/echelle1d.py` (class `Ech1d`).

An `Ech1d` is a Python list of `Spec1d` collaborator objects, one per echelle
order.  The collaborator `Spec1d` (specim.specfuncs, outside this file's
source tree) is modelled by its observable column data; its operations
(`plot`, `smooth`, `mark_lines`) are modelled as emitted events, and the
shared matplotlib axis as a final `xlim` event.  The filesystem touched by
`astropy.io.fits` is modelled as a path-indexed map of FITS files, a FITS
file as its list of HDUs (records).  Rationals stand in for the floating
point sample values; wavelengths are the `wav` column.
-/

/-- One order's spectral data: the columns of a `Spec1d` collaborator object
(wavelength `wav`, `flux`, optional `var` and `sky`).  `len(spec)` in Python
is the number of rows (samples), i.e. the length of the columns. -/
structure SpecData where
  wav : List ℚ
  flux : List ℚ
  var : Option (List ℚ)
  sky : Option (List ℚ)
deriving DecidableEq

/-- `len(spec)` for a `Spec1d` object: the number of samples (rows). -/
def specLen (s : SpecData) : ℕ := s.wav.length

/-- A Python value that may appear in the `speclist` argument of
`Ech1d.__init__`: either a `Spec1d` instance (modelled by its column data)
or some other object, which fails the `isinstance(spec, ss.Spec1d)` check. -/
inductive PyObj where
  | spec1d (s : SpecData)
  | other (tag : String)
deriving DecidableEq

/-- The Python exceptions raised along the modelled code paths.  An
`ioError` carries the message of the underlying OS error; a bare
`raise IOError` produces an exception with no detail, modelled as
`ioError ""`. -/
inductive PyErr where
  | ioError (msg : String)
  | typeError
  | nameError
deriving DecidableEq

/-- One record (HDU) of a FITS file: the empty primary HDU, or a binary
table HDU holding one order's columns. -/
inductive HDU where
  | primary
  | table (t : SpecData)
deriving DecidableEq

/-- A FITS file is its list of HDUs, index 0 first. -/
abbrev FitsFile := List HDU

/-- The filesystem, as an association list from path to FITS file. -/
abbrev Fs := List (String × FitsFile)

/-- Look a path up in the filesystem. -/
def fsGet (fs : Fs) (path : String) : Option FitsFile :=
  (fs.find? (fun e => e.1 == path)).map (fun e => e.2)

/-- `HDUList.writeto(path, overwrite=True)`: store the file at the path,
unconditionally replacing whatever was there before. -/
def fsSet (fs : Fs) (path : String) (f : FitsFile) : Fs :=
  (path, f) :: fs.filter (fun e => !(e.1 == path))

/-- `astropy.io.fits.open(path)`: on a missing path the library raises an
`OSError` (alias `IOError`) that carries a description of the failure,
modelled as a nonempty message string. -/
def pfOpen (fs : Fs) (path : String) : Except PyErr FitsFile :=
  match fsGet fs path with
  | some f => Except.ok f
  | none => Except.error (PyErr.ioError ("No such file or directory: " ++ path))

/-- Modelled from the spec: the collaborator constructor
`ss.Spec1d(hdu=...)` (specim.specfuncs, not under the provided source tree)
reads one order's spectrum back from a table record; per §6 of the spec,
records 1..N of the input file each hold one order's tabular data.  On the
non-data primary record (never passed by `Ech1d.__init__`, which starts at
record 1 of a well-formed file) it is given a harmless empty value. -/
def spec1dFromHDU : HDU → SpecData
  | HDU.table t => t
  | HDU.primary => { wav := [], flux := [], var := none, sky := none }

/-- `pf.table_to_hdu(Table(spec))`: one order becomes one table HDU whose
columns are the spectrum's columns. -/
def tableOfSpec (s : SpecData) : HDU := HDU.table s

/-- The column names of the table built from one order: always `wav` and
`flux`, plus `var` and `sky` when present. -/
def tableColumns (s : SpecData) : List String :=
  ["wav", "flux"]
    ++ (match s.var with | some _ => ["var"] | none => [])
    ++ (match s.sky with | some _ => ["sky"] | none => [])

/-- The observable outcome of `Ech1d.__init__`: the constructed list of
spectra (or the exception the constructor raised, in which case the caller
holds no collection at all), the diagnostic lines printed, and the file
paths on which an open was attempted. -/
structure InitOut where
  result : Except PyErr (List SpecData)
  prints : List String
  opened : List String

/-- The `speclist` branch of `Ech1d.__init__`: iterate over the list, check
`isinstance(spec, ss.Spec1d)` for each element, append conforming elements,
and on the first non-conforming element print a diagnostic and raise
`TypeError` (so the caller never sees a partially built collection). -/
def initFromList : List PyObj → InitOut
  | [] => { result := Except.ok [], prints := [], opened := [] }
  | PyObj.spec1d s :: rest =>
    let r := initFromList rest
    { result := r.result.map (fun l => s :: l), prints := r.prints, opened := r.opened }
  | PyObj.other _ :: _ =>
    { result := Except.error PyErr.typeError,
      prints := ["", "With speclist option the list must contain Spec1d instances", ""],
      opened := [] }

/-- `Ech1d.__init__(speclist, echfile, filelist, informat, verbose)`.
The three sources are tried in order: a non-`None` `speclist` wins and the
file is never opened; otherwise a non-`None` `echfile` is opened (a failed
open is caught by `except IOError: raise IOError`, i.e. re-raised as a
fresh bare `IOError`), and one `Spec1d` is built from each record after the
first; otherwise (with or without a `filelist`) a notice is printed and the
collection stays empty. -/
def ech1dInit (speclist : Option (List PyObj)) (echfile : Option String)
    (filelist : Option (List String)) (fs : Fs) (verbose : Bool) : InitOut :=
  match speclist, echfile with
  | some l, _ => initFromList l
  | none, some path =>
    let pr : List String :=
      if verbose then ["Opening echelle spectrum file: " ++ path] else []
    (match pfOpen fs path with
     | Except.error (PyErr.ioError _) =>
       { result := Except.error (PyErr.ioError ""), prints := pr, opened := [path] }
     | Except.error e => { result := Except.error e, prints := pr, opened := [path] }
     | Except.ok hdu =>
       { result := Except.ok ((hdu.drop 1).map spec1dFromHDU), prints := pr,
         opened := [path] })
  | none, none =>
    { result := Except.ok [],
      prints := ["", "NOTE: filelist option is not implemented for input", ""],
      opened := [] }

/-- `Ech1d.save_multi(outroot, outformat)`: for `'multitab'`, build the
primary HDU plus one table HDU per order and write them as a single file at
`outroot + '.fits'` with `overwrite=True`; for any other format value,
print a notice and touch nothing.  Returns the new filesystem and the
printed lines. -/
def save_multi (c : List SpecData) (outroot : String) (outformat : String)
    (fs : Fs) : Fs × List String :=
  if outformat = "multitab" then
    let phdu := HDU.primary
    let lll := c.map tableOfSpec
    let hdulist := phdu :: lll
    let outfile := outroot ++ ".fits"
    (fsSet fs outfile hdulist, [])
  else
    (fs, ["", "Not yet implemented yet", ""])

/-- The Python value held by the `title` variable of `plot_all`: the caller
passes `None` or a string, and the loop may overwrite it with `False` or
with the default string. -/
inductive TitleVal where
  | noneV
  | falseV
  | strV (s : String)
deriving DecidableEq

/-- One observable collaborator call made by `plot_all`:
`spec.plot(...)`, `spec.smooth(...)`, `spec.mark_lines(...)`, or the final
`plt.xlim(...)` on the shared axis. -/
inductive PlotEvent where
  | plot (mode : String) (title : TitleVal)
  | smooth (smo : ℚ) (mode : String) (title : TitleVal) (verbose : Bool)
  | markLines (linetype : String) (z : ℚ) (showz : Bool) (usesmooth : Bool)
  | xlim (lo hi : ℚ)
deriving DecidableEq

/-- The loop state of `plot_all`: the mutable `title` variable, the running
`wmin`/`wmax`, the (unused) counter `i`, and the calls made so far. -/
structure PlotState where
  title : TitleVal
  wmin : ℚ
  wmax : ℚ
  i : ℕ
  events : List PlotEvent
deriving DecidableEq

/-- `arr.min()` for a (nonempty) numpy column; the value on `[]` is a junk
default, the library raises there. -/
def colMin : List ℚ → ℚ
  | [] => 0
  | x :: xs => xs.foldl (fun a b => if b < a then b else a) x

/-- `arr.max()` for a (nonempty) numpy column; the value on `[]` is a junk
default, the library raises there. -/
def colMax : List ℚ → ℚ
  | [] => 0
  | x :: xs => xs.foldl (fun a b => if b > a then b else a) x

/-- Lines 90-96 of `plot_all`: the per-order title and showz flags, set by
comparing the enumeration index `count` with `len(spec) - 1`, where `spec`
is the current order (so `len(spec)` is its own number of samples).  The
comparison is over ℤ, as in Python (`len(spec) - 1` is `-1` for an empty
spectrum and matches no `count`). -/
def orderTitleShowz (count : ℕ) (spec : SpecData) (title : TitleVal) :
    TitleVal × Bool :=
  if (count : ℤ) = (specLen spec : ℤ) - 1 then
    ((if title = TitleVal.noneV then TitleVal.strV "Extracted Spectrum" else title), true)
  else
    (TitleVal.falseV, false)

/-- The `spec.mark_lines` call of `plot_all` with its `try/except NameError`
handler.  `recog` is the collaborator's line-style lookup (modelled from the
spec: an unrecognized style name makes `mark_lines` signal a lookup failure,
a `NameError`).  On failure the orchestrator retries once with the default
style `'strongem'`; a failure of that second, unguarded call propagates. -/
def markEvents (recog : String → Bool) (z : Option ℚ) (linetype : String)
    (showz : Bool) (usesmooth : Bool) : Except PyErr (List PlotEvent) :=
  match z with
  | none => Except.ok []
  | some zv =>
    if recog linetype then Except.ok [PlotEvent.markLines linetype zv showz usesmooth]
    else if recog "strongem" then
      Except.ok [PlotEvent.markLines "strongem" zv showz usesmooth]
    else Except.error PyErr.nameError

/-- One iteration of the `for count, spec in enumerate(self)` loop of
`plot_all`: set the per-order flags, plot (or smooth-and-plot), mark the
lines when a redshift was given, and fold the order's wavelength range into
`wmin`/`wmax`. -/
def plotStep (recog : String → Bool) (mode : String) (z : Option ℚ)
    (linetype : String) (smo : Option ℚ) (verbose : Bool) (count : ℕ)
    (spec : SpecData) (st : PlotState) : Except PyErr PlotState :=
  let ts := orderTitleShowz count spec st.title
  let ev1 := match smo with
    | some w => PlotEvent.smooth w mode ts.1 verbose
    | none => PlotEvent.plot mode ts.1
  match markEvents recog z linetype ts.2 smo.isSome with
  | Except.error e => Except.error e
  | Except.ok mevs =>
    Except.ok
      { title := ts.1,
        wmin := if colMin spec.wav < st.wmin then colMin spec.wav else st.wmin,
        wmax := if colMax spec.wav > st.wmax then colMax spec.wav else st.wmax,
        i := st.i + 1,
        events := st.events ++ [ev1] ++ mevs }

/-- The loop of `plot_all`, iterating `plotStep` over the collection. -/
def plotLoop (recog : String → Bool) (mode : String) (z : Option ℚ)
    (linetype : String) (smo : Option ℚ) (verbose : Bool) :
    List SpecData → ℕ → PlotState → Except PyErr PlotState
  | [], _, st => Except.ok st
  | spec :: rest, count, st =>
    match plotStep recog mode z linetype smo verbose count spec st with
    | Except.error e => Except.error e
    | Except.ok st' => plotLoop recog mode z linetype smo verbose rest (count + 1) st'

/-- `Ech1d.plot_all`: run the loop from the starting values
`wmin = 1.e12`, `wmax = 0.`, then set the shared axis limits with
`plt.xlim(wmin, wmax)` (the final event). -/
def plot_all (recog : String → Bool) (c : List SpecData) (mode : String)
    (title : TitleVal) (z : Option ℚ) (linetype : String) (smo : Option ℚ)
    (verbose : Bool) : Except PyErr (List PlotEvent) :=
  match plotLoop recog mode z linetype smo verbose c 0
      { title := title, wmin := 1000000000000, wmax := 0, i := 0, events := [] } with
  | Except.ok st => Except.ok (st.events ++ [PlotEvent.xlim st.wmin st.wmax])
  | Except.error e => Except.error e

/-- `wmin` after folding a list of orders, exactly as the loop updates it. -/
def wminFold (l : List SpecData) (w : ℚ) : ℚ :=
  l.foldl (fun w s => if colMin s.wav < w then colMin s.wav else w) w

/-- `wmax` after folding a list of orders, exactly as the loop updates it. -/
def wmaxFold (l : List SpecData) (w : ℚ) : ℚ :=
  l.foldl (fun w s => if colMax s.wav > w then colMax s.wav else w) w

/-- The minimum wavelength observed across every order's `wav` column. -/
def allWavMin (c : List SpecData) : ℚ := colMin (c.map (fun s => colMin s.wav))

/-- The maximum wavelength observed across every order's `wav` column. -/
def allWavMax (c : List SpecData) : ℚ := colMax (c.map (fun s => colMax s.wav))

/-! ### Helper lemmas -/

theorem initFromList_map_ok (l : List SpecData) :
    initFromList (l.map PyObj.spec1d) =
      { result := Except.ok l, prints := [], opened := [] } := by
  induction l with
  | nil => rfl
  | cons s rest ih => simp [initFromList, ih, Except.map]

theorem initFromList_opened (l : List PyObj) : (initFromList l).opened = [] := by
  induction l with
  | nil => rfl
  | cons x xs ih => cases x <;> simp [initFromList, ih]

theorem initFromList_first_bad (l1 : List PyObj) :
    ∀ (tag : String) (l2 : List PyObj),
      (∀ x ∈ l1, ∃ s, x = PyObj.spec1d s) →
      initFromList (l1 ++ PyObj.other tag :: l2) =
        { result := Except.error PyErr.typeError,
          prints := ["", "With speclist option the list must contain Spec1d instances", ""],
          opened := [] } := by
  induction l1 with
  | nil => intro tag l2 _; rfl
  | cons x xs ih =>
    intro tag l2 h
    obtain ⟨s, rfl⟩ := h x (List.mem_cons_self x xs)
    have hrec := ih tag l2 (fun y hy => h y (List.mem_cons_of_mem _ hy))
    simp [initFromList, hrec, Except.map]

theorem fsGet_fsSet (fs : Fs) (path : String) (f : FitsFile) :
    fsGet (fsSet fs path f) path = some f := by
  simp [fsGet, fsSet, List.find?]

/-! ### Claims -/

/-- Claim C1: in `plot_all`, the per-order title and redshift-visibility
flag of the order at enumeration index `count` are set by comparing `count`
with `len(spec) - 1`, where `spec` is the current order itself (so
`len(spec)` is that order's own number of samples, `spec.wav.length`, not
the collection's length): on equality `showz` becomes true and the title
defaults to `'Extracted Spectrum'` when the running `title` variable is
still `None`; otherwise the title is set to `False` and `showz` to false.
The last conjunct ties the flags to the loop body: the step at `count`
emits the plot call with exactly that title. -/
theorem c1_title_flags (recog : String → Bool) (mode : String)
    (linetype : String) (verbose : Bool) (count : ℕ) (spec : SpecData)
    (st : PlotState) :
    (orderTitleShowz count spec st.title).2 =
      decide ((count : ℤ) = (specLen spec : ℤ) - 1) ∧
    (orderTitleShowz count spec st.title).1 =
      (if (count : ℤ) = (specLen spec : ℤ) - 1 then
        (if st.title = TitleVal.noneV then TitleVal.strV "Extracted Spectrum"
         else st.title)
       else TitleVal.falseV) ∧
    specLen spec = spec.wav.length ∧
    plotStep recog mode none linetype none verbose count spec st =
      Except.ok
        { title := (orderTitleShowz count spec st.title).1,
          wmin := if colMin spec.wav < st.wmin then colMin spec.wav else st.wmin,
          wmax := if colMax spec.wav > st.wmax then colMax spec.wav else st.wmax,
          i := st.i + 1,
          events := st.events ++ [PlotEvent.plot mode (orderTitleShowz count spec st.title).1] } := by
  refine ⟨?_, ?_, rfl, ?_⟩
  · by_cases h : (count : ℤ) = (specLen spec : ℤ) - 1 <;> simp [orderTitleShowz, h]
  · by_cases h : (count : ℤ) = (specLen spec : ℤ) - 1 <;> simp [orderTitleShowz, h]
  · simp [plotStep, markEvents]

/-- Claim C2: `save_multi(outroot, 'multitab')` on a collection of N orders
writes, at path `outroot ++ ".fits"`, a single file of exactly N+1 records:
the empty primary record followed by one table record per order in the
collection's original order; each table carries at least the `wav` and
`flux` columns; and whatever the filesystem previously held at that path,
the write replaces it (no error, no append). -/
theorem c2_save_multitab (c : List SpecData) (outroot : String) (fs : Fs) :
    fsGet (save_multi c outroot "multitab" fs).1 (outroot ++ ".fits") =
      some (HDU.primary :: c.map tableOfSpec) ∧
    (HDU.primary :: c.map tableOfSpec).length = c.length + 1 ∧
    (∀ i : ℕ, (HDU.primary :: c.map tableOfSpec).get? (i + 1) =
      (c.get? i).map tableOfSpec) ∧
    (∀ s : SpecData, "wav" ∈ tableColumns s ∧ "flux" ∈ tableColumns s) := by
  refine ⟨?_, by simp, ?_, ?_⟩
  · simp only [save_multi, if_pos rfl]
    exact fsGet_fsSet fs (outroot ++ ".fits") (HDU.primary :: c.map tableOfSpec)
  · intro i
    simp [List.get?_map]
  · intro s
    constructor <;> simp [tableColumns]

/-- Claim C3: round-trip.  Re-constructing an `Ech1d` from the file that
`save_multi(outroot, 'multitab')` wrote yields exactly the exported
collection: same length and the same per-order column content (the model's
rational columns make the tabular serialization lossless, so "modulo
precision" is an equality here).  The `Spec1d(hdu=...)` reader is the
spec-modelled collaborator `spec1dFromHDU`. -/
theorem c3_roundtrip (c : List SpecData) (outroot : String) (fs : Fs)
    (verbose : Bool) :
    (ech1dInit none (some (outroot ++ ".fits")) none
        (save_multi c outroot "multitab" fs).1 verbose).result =
      Except.ok c := by
  have hget : fsGet (save_multi c outroot "multitab" fs).1 (outroot ++ ".fits") =
      some (HDU.primary :: c.map tableOfSpec) := by
    simp only [save_multi, if_pos rfl]
    exact fsGet_fsSet fs (outroot ++ ".fits") (HDU.primary :: c.map tableOfSpec)
  have hcomp : spec1dFromHDU ∘ tableOfSpec = id := funext fun s => rfl
  simp [ech1dInit, pfOpen, hget, List.map_map, hcomp]

/-- Claim C7: for any output-format selector other than `'multitab'`,
`save_multi` leaves the filesystem exactly as it was, prints only the
"Not yet implemented yet" notice, and raises nothing (it returns normally
with the unchanged filesystem). -/
theorem c7_other_format_noop (c : List SpecData) (outroot : String)
    (outformat : String) (fs : Fs) (h : outformat ≠ "multitab") :
    save_multi c outroot outformat fs = (fs, ["", "Not yet implemented yet", ""]) := by
  simp [save_multi, h]

/-- Witness for C7 at a concrete input: the `'text'` format is not
`'multitab'`, and the call returns the untouched filesystem plus the
notice. -/
theorem c7_witness :
    ("text" : String) ≠ "multitab" ∧
    save_multi [] "specout" "text" [("specout.fits", [HDU.primary])] =
      ([("specout.fits", [HDU.primary])], ["", "Not yet implemented yet", ""]) :=
  ⟨by decide, c7_other_format_noop [] "specout" "text"
    [("specout.fits", [HDU.primary])] (by decide)⟩

/-- Claim C10: source precedence in `Ech1d.__init__`.  With an explicit
`speclist` supplied, the outcome is computed from the list alone — it is
identical whatever `echfile`, `filelist` or `verbose` are — and no file
open is ever attempted; only when both `speclist` and `echfile` are absent
does the constructor (with or without a `filelist`) print the
not-implemented notice and yield an empty collection. -/
theorem c10_source_precedence (l : List PyObj) (ef : Option String)
    (fl fl' : Option (List String)) (fs : Fs) (v v' : Bool) :
    ech1dInit (some l) ef fl fs v = ech1dInit (some l) none none fs v' ∧
    (ech1dInit (some l) ef fl fs v).opened = [] ∧
    ech1dInit none none fl' fs v =
      { result := Except.ok [],
        prints := ["", "NOTE: filelist option is not implemented for input", ""],
        opened := [] } := by
  exact ⟨rfl, initFromList_opened l, rfl⟩

/-- Claim C4: construction preserves input order and length.  From an
explicit list of conforming `Spec1d` objects the collection is exactly that
list (same elements, same order); from a file whose lookup yields a
well-formed N+1-record FITS file (`h0` followed by `rest`, each of the N
records of `rest` a table record) the collection holds exactly one entity
per record after the first, in file record order, so N of them.  No
reordering or sorting happens in either case. -/
theorem c4_order_and_length (l : List SpecData) (fs : Fs) (path : String)
    (h0 : HDU) (rest : List HDU) (v : Bool)
    (hf : fsGet fs path = some (h0 :: rest))
    (hwf : ∀ r ∈ rest, ∃ t, r = HDU.table t) :
    (ech1dInit (some (l.map PyObj.spec1d)) none none fs v).result = Except.ok l ∧
    (ech1dInit none (some path) none fs v).result =
      Except.ok (rest.map spec1dFromHDU) ∧
    (rest.map spec1dFromHDU).length = (h0 :: rest).length - 1 := by
  refine ⟨?_, ?_, by simp⟩
  · simp [ech1dInit, initFromList_map_ok]
  · simp [ech1dInit, pfOpen, hf]

/-- Witness for C4 at concrete inputs: a one-element conforming list, and a
filesystem holding a two-record file (primary plus one table). -/
theorem c4_witness :
    fsGet [("e.fits", [HDU.primary, HDU.table ⟨[3], [4], none, none⟩])] "e.fits" =
      some (HDU.primary :: [HDU.table ⟨[3], [4], none, none⟩]) ∧
    ((ech1dInit (some ([⟨[1], [2], none, none⟩].map PyObj.spec1d)) none none
        [("e.fits", [HDU.primary, HDU.table ⟨[3], [4], none, none⟩])] true).result =
      Except.ok [⟨[1], [2], none, none⟩] ∧
    (ech1dInit none (some "e.fits") none
        [("e.fits", [HDU.primary, HDU.table ⟨[3], [4], none, none⟩])] true).result =
      Except.ok ([HDU.table ⟨[3], [4], none, none⟩].map spec1dFromHDU) ∧
    ([HDU.table ⟨[3], [4], none, none⟩].map spec1dFromHDU).length =
      (HDU.primary :: [HDU.table ⟨[3], [4], none, none⟩]).length - 1) :=
  ⟨rfl, c4_order_and_length [⟨[1], [2], none, none⟩]
    [("e.fits", [HDU.primary, HDU.table ⟨[3], [4], none, none⟩])] "e.fits"
    HDU.primary [HDU.table ⟨[3], [4], none, none⟩] true rfl
    (fun r hr => ⟨⟨[3], [4], none, none⟩, List.mem_singleton.mp hr⟩)⟩

/-- Claim C5: constructing from a list whose elements are conforming up to
the first non-conforming one fails with `TypeError` at that first offender
(whatever follows it, even further `Spec1d` objects, is irrelevant), prints
the diagnostic, and the caller observes no partially built collection (the
result carries the exception and no list) and no file open is attempted. -/
theorem c5_type_mismatch (l1 l2 : List PyObj) (tag : String)
    (ef : Option String) (fl : Option (List String)) (fs : Fs) (v : Bool)
    (h1 : ∀ x ∈ l1, ∃ s, x = PyObj.spec1d s) :
    (ech1dInit (some (l1 ++ PyObj.other tag :: l2)) ef fl fs v).result =
      Except.error PyErr.typeError ∧
    (ech1dInit (some (l1 ++ PyObj.other tag :: l2)) ef fl fs v).prints =
      ["", "With speclist option the list must contain Spec1d instances", ""] ∧
    (ech1dInit (some (l1 ++ PyObj.other tag :: l2)) ef fl fs v).opened = [] := by
  have h := initFromList_first_bad l1 tag l2 h1
  refine ⟨?_, ?_, ?_⟩ <;> simp [ech1dInit, h]

/-- Witness for C5 at a concrete input: one conforming element followed by
a non-conforming object (and a trailing conforming element that the
fail-fast check never reaches). -/
theorem c5_witness :
    (∀ x ∈ [PyObj.spec1d ⟨[1], [2], none, none⟩], ∃ s, x = PyObj.spec1d s) ∧
    (ech1dInit (some ([PyObj.spec1d ⟨[1], [2], none, none⟩] ++
        PyObj.other "ndarray" :: [PyObj.spec1d ⟨[5], [6], none, none⟩]))
        none none [] true).result = Except.error PyErr.typeError :=
  ⟨fun x hx => ⟨⟨[1], [2], none, none⟩, List.mem_singleton.mp hx⟩,
   (c5_type_mismatch [PyObj.spec1d ⟨[1], [2], none, none⟩]
      [PyObj.spec1d ⟨[5], [6], none, none⟩] "ndarray" none none [] true
      (fun x hx => ⟨⟨[1], [2], none, none⟩, List.mem_singleton.mp hx⟩)).1⟩

/-- Claim C8, counterexample: the claim says the I/O failure of an
unopenable file is propagated with the original error information intact,
but `except IOError: raise IOError` re-raises a fresh bare `IOError`.  On
the empty filesystem and path `"missing.fits"`, the library's open fails
with a descriptive `IOError`, while the constructor surfaces an `IOError`
with no detail — a different exception value. -/
theorem c8_counterexample :
    (ech1dInit none (some "missing.fits") none [] true).result =
      Except.error (PyErr.ioError "") ∧
    pfOpen [] "missing.fits" =
      Except.error (PyErr.ioError "No such file or directory: missing.fits") ∧
    PyErr.ioError "" ≠ PyErr.ioError "No such file or directory: missing.fits" :=
  ⟨rfl, rfl, by decide⟩

/-- Claim C8 as amended: when the source file cannot be opened, the
constructor catches the library's `IOError` and raises a fresh `IOError` of
the same class but stripped of the original error detail (it is not
wrapped in a different class, not translated, not retried — `opened`
records a single open attempt), and no partial collection is kept (the
result carries the exception, not a list). -/
theorem c8_io_error_bare (fs : Fs) (path : String) (fl : Option (List String))
    (v : Bool) (msg : String)
    (ho : pfOpen fs path = Except.error (PyErr.ioError msg)) :
    (ech1dInit none (some path) fl fs v).result =
      Except.error (PyErr.ioError "") ∧
    (ech1dInit none (some path) fl fs v).opened = [path] := by
  constructor <;> simp [ech1dInit, ho]

/-- Witness for C8 (amended) at a concrete input: the empty filesystem and
a missing path. -/
theorem c8_witness :
    pfOpen [] "m.fits" =
      Except.error (PyErr.ioError "No such file or directory: m.fits") ∧
    ((ech1dInit none (some "m.fits") none [] false).result =
      Except.error (PyErr.ioError "") ∧
    (ech1dInit none (some "m.fits") none [] false).opened = ["m.fits"]) :=
  ⟨rfl, c8_io_error_bare [] "m.fits" none false
    "No such file or directory: m.fits" rfl⟩

/-- Claim C9: in `plot_all` with a redshift supplied, when the
collaborator's `mark_lines` does not recognize the requested line-style
name (the spec-modelled lookup `recog` fails, i.e. `mark_lines` raises a
`NameError`) but knows the default style, the iteration recovers by
re-invoking `mark_lines` with `'strongem'` and the same redshift, `showz`
and `usesmooth` arguments, and the step succeeds instead of propagating
the lookup failure. -/
theorem c9_fallback (recog : String → Bool) (mode : String) (linetype : String)
    (smo : Option ℚ) (verbose : Bool) (count : ℕ) (spec : SpecData)
    (st : PlotState) (zv : ℚ) (h1 : recog linetype = false)
    (h2 : recog "strongem" = true) :
    plotStep recog mode (some zv) linetype smo verbose count spec st =
      Except.ok
        { title := (orderTitleShowz count spec st.title).1,
          wmin := if colMin spec.wav < st.wmin then colMin spec.wav else st.wmin,
          wmax := if colMax spec.wav > st.wmax then colMax spec.wav else st.wmax,
          i := st.i + 1,
          events := st.events ++
            [match smo with
             | some w => PlotEvent.smooth w mode (orderTitleShowz count spec st.title).1 verbose
             | none => PlotEvent.plot mode (orderTitleShowz count spec st.title).1] ++
            [PlotEvent.markLines "strongem" zv (orderTitleShowz count spec st.title).2
              smo.isSome] } := by
  simp [plotStep, markEvents, h1, h2]

/-- Witness for C9 at a concrete input: a collaborator that only knows
`'strongem'`, asked for the unknown style `'badstyle'`. -/
theorem c9_witness :
    (fun s => s == "strongem") "badstyle" = false ∧
    (fun s => s == "strongem") "strongem" = true ∧
    plotStep (fun s => s == "strongem") "input" (some 1) "badstyle" none false 0
        ⟨[1], [2], none, none⟩ ⟨TitleVal.noneV, 1000000000000, 0, 0, []⟩ =
      Except.ok
        { title := TitleVal.strV "Extracted Spectrum",
          wmin := 1,
          wmax := 1,
          i := 1,
          events := [PlotEvent.plot "input" (TitleVal.strV "Extracted Spectrum"),
            PlotEvent.markLines "strongem" 1 true false] } :=
  ⟨rfl, rfl, c9_fallback (fun s => s == "strongem") "input" "badstyle" none false 0
    ⟨[1], [2], none, none⟩ ⟨TitleVal.noneV, 1000000000000, 0, 0, []⟩ 1 rfl rfl⟩

theorem if_lt_eq_min (w a : ℚ) : (if a < w then a else w) = min w a := by
  rcases lt_or_le a w with h | h
  · rw [if_pos h, min_eq_right (le_of_lt h)]
  · rw [if_neg (not_lt.mpr h), min_eq_left h]

theorem if_gt_eq_max (w a : ℚ) : (if a > w then a else w) = max w a := by
  rcases lt_or_le w a with h | h
  · rw [if_pos h, max_eq_right (le_of_lt h)]
  · rw [if_neg (not_lt.mpr h), max_eq_left h]

theorem colMin_cons (x : ℚ) (xs : List ℚ) : colMin (x :: xs) = xs.foldl min x := by
  simp only [colMin]
  congr 1
  funext a b
  exact if_lt_eq_min a b

theorem colMax_cons (x : ℚ) (xs : List ℚ) : colMax (x :: xs) = xs.foldl max x := by
  simp only [colMax]
  congr 1
  funext a b
  exact if_gt_eq_max a b

theorem foldl_min_colMin : ∀ (xs : List ℚ) (w : ℚ), xs ≠ [] →
    xs.foldl min w = min w (colMin xs) := by
  intro xs
  induction xs with
  | nil => intro w h; exact absurd rfl h
  | cons x ys ih =>
    intro w _
    rw [colMin_cons]
    by_cases hys : ys = []
    · subst hys; simp
    · calc (x :: ys).foldl min w = ys.foldl min (min w x) := rfl
        _ = min (min w x) (colMin ys) := by rw [ih (min w x) hys]
        _ = min w (min x (colMin ys)) := min_assoc w x (colMin ys)
        _ = min w (ys.foldl min x) := by rw [ih x hys]

theorem foldl_max_colMax : ∀ (xs : List ℚ) (w : ℚ), xs ≠ [] →
    xs.foldl max w = max w (colMax xs) := by
  intro xs
  induction xs with
  | nil => intro w h; exact absurd rfl h
  | cons x ys ih =>
    intro w _
    rw [colMax_cons]
    by_cases hys : ys = []
    · subst hys; simp
    · calc (x :: ys).foldl max w = ys.foldl max (max w x) := rfl
        _ = max (max w x) (colMax ys) := by rw [ih (max w x) hys]
        _ = max w (max x (colMax ys)) := max_assoc w x (colMax ys)
        _ = max w (ys.foldl max x) := by rw [ih x hys]

theorem wminFold_eq_min (l : List SpecData) (w : ℚ) (hl : l ≠ []) :
    wminFold l w = min w (allWavMin l) := by
  have h1 : wminFold l w = (l.map (fun s => colMin s.wav)).foldl min w := by
    rw [List.foldl_map]
    unfold wminFold
    congr 1
    funext a s
    exact if_lt_eq_min a (colMin s.wav)
  rw [h1, foldl_min_colMin _ w (by simpa using hl)]
  rfl

theorem wmaxFold_eq_max (l : List SpecData) (w : ℚ) (hl : l ≠ []) :
    wmaxFold l w = max w (allWavMax l) := by
  have h1 : wmaxFold l w = (l.map (fun s => colMax s.wav)).foldl max w := by
    rw [List.foldl_map]
    unfold wmaxFold
    congr 1
    funext a s
    exact if_gt_eq_max a (colMax s.wav)
  rw [h1, foldl_max_colMax _ w (by simpa using hl)]
  rfl

theorem plotStep_ok_minmax (recog : String → Bool) (mode : String)
    (z : Option ℚ) (linetype : String) (smo : Option ℚ) (verbose : Bool)
    (count : ℕ) (spec : SpecData) (st st' : PlotState)
    (h : plotStep recog mode z linetype smo verbose count spec st = Except.ok st') :
    st'.wmin = (if colMin spec.wav < st.wmin then colMin spec.wav else st.wmin) ∧
    st'.wmax = (if colMax spec.wav > st.wmax then colMax spec.wav else st.wmax) := by
  simp only [plotStep] at h
  cases hm : markEvents recog z linetype (orderTitleShowz count spec st.title).2
      smo.isSome with
  | error e => rw [hm] at h; exact absurd h (by simp)
  | ok mevs =>
    rw [hm] at h
    simp only [Except.ok.injEq] at h
    subst h
    exact ⟨rfl, rfl⟩

theorem plotLoop_ok_minmax (recog : String → Bool) (mode : String)
    (z : Option ℚ) (linetype : String) (smo : Option ℚ) (verbose : Bool) :
    ∀ (l : List SpecData) (count : ℕ) (st st' : PlotState),
      plotLoop recog mode z linetype smo verbose l count st = Except.ok st' →
      st'.wmin = wminFold l st.wmin ∧ st'.wmax = wmaxFold l st.wmax := by
  intro l
  induction l with
  | nil =>
    intro count st st' h
    simp only [plotLoop, Except.ok.injEq] at h
    subst h
    exact ⟨rfl, rfl⟩
  | cons spec rest ih =>
    intro count st st' h
    simp only [plotLoop] at h
    cases hs : plotStep recog mode z linetype smo verbose count spec st with
    | error e => rw [hs] at h; exact absurd h (by simp)
    | ok st1 =>
      rw [hs] at h
      obtain ⟨h1, h2⟩ := plotStep_ok_minmax recog mode z linetype smo verbose
        count spec st st1 hs
      obtain ⟨h3, h4⟩ := ih (count + 1) st1 st' h
      constructor
      · rw [h3, h1]; rfl
      · rw [h4, h2]; rfl

/-- Claim C6, counterexample: the claim promises the axis limits are always
exactly the observed wavelength minimum and maximum, but the loop seeds
`wmin = 1.e12` and only lowers it on a strictly smaller value.  For a
single order whose wavelengths all exceed 1.e12 the observed minimum (and
maximum) is 2e12, yet the code sets the lower limit to the seed 1e12. -/
theorem c6_counterexample :
    plot_all (fun _ => true) [⟨[2000000000000], [1], none, none⟩] "input"
        TitleVal.noneV none "strongem" none false =
      Except.ok [PlotEvent.plot "input" (TitleVal.strV "Extracted Spectrum"),
        PlotEvent.xlim 1000000000000 2000000000000] ∧
    allWavMin [⟨[2000000000000], [1], none, none⟩] = 2000000000000 ∧
    allWavMax [⟨[2000000000000], [1], none, none⟩] = 2000000000000 ∧
    (1000000000000 : ℚ) ≠ 2000000000000 :=
  ⟨rfl, rfl, rfl, by decide⟩

/-- Claim C6 as amended: the loop seeds `wmin = 1.e12` and `wmax = 0.`, so
for every nonempty collection with nonempty wavelength columns on which
`plot_all` completes, the final `plt.xlim` call sets the limits to
`min(1e12, observed minimum)` and `max(0, observed maximum)`; whenever the
observed minimum is at most 1e12 and the observed maximum is at least 0 —
as for the concrete [4000,5000] and [5000,6000] scenario, whose limits are
exactly [4000, 6000] — these are exactly the observed minimum and maximum
wavelength across every order's wavelength column. -/
theorem c6_xlim (recog : String → Bool) (mode : String) (title : TitleVal)
    (z : Option ℚ) (linetype : String) (smo : Option ℚ) (verbose : Bool)
    (c : List SpecData) (evs : List PlotEvent) (hc : c ≠ [])
    (hw : ∀ s ∈ c, s.wav ≠ []) (hmin : allWavMin c ≤ 1000000000000)
    (hmax : 0 ≤ allWavMax c)
    (hok : plot_all recog c mode title z linetype smo verbose = Except.ok evs) :
    evs.getLast? = some (PlotEvent.xlim (allWavMin c) (allWavMax c)) := by
  clear hw
  simp only [plot_all] at hok
  cases hl : plotLoop recog mode z linetype smo verbose c 0
      { title := title, wmin := 1000000000000, wmax := 0, i := 0, events := [] } with
  | error e => rw [hl] at hok; exact absurd hok (by simp)
  | ok st =>
    rw [hl] at hok
    simp only [Except.ok.injEq] at hok
    subst hok
    obtain ⟨h1, h2⟩ := plotLoop_ok_minmax recog mode z linetype smo verbose
      c 0 _ st hl
    rw [List.getLast?_concat]
    have hwmin : st.wmin = allWavMin c := by
      rw [h1, wminFold_eq_min c _ hc]
      exact min_eq_right hmin
    have hwmax : st.wmax = allWavMax c := by
      rw [h2, wmaxFold_eq_max c _ hc]
      exact max_eq_right hmax
    rw [hwmin, hwmax]

/-- Witness for C6 (amended) at the spec's concrete scenario: two orders
with wavelength ranges [4000,5000] and [5000,6000]; the shared axis limits
are set to exactly [4000,6000]. -/
theorem c6_witness :
    ([(⟨[4000, 5000], [1, 2], none, none⟩ : SpecData),
      ⟨[5000, 6000], [3, 4], none, none⟩] ≠ []) ∧
    (∀ s ∈ [(⟨[4000, 5000], [1, 2], none, none⟩ : SpecData),
      ⟨[5000, 6000], [3, 4], none, none⟩], s.wav ≠ []) ∧
    allWavMin [⟨[4000, 5000], [1, 2], none, none⟩,
      ⟨[5000, 6000], [3, 4], none, none⟩] ≤ 1000000000000 ∧
    (0 : ℚ) ≤ allWavMax [⟨[4000, 5000], [1, 2], none, none⟩,
      ⟨[5000, 6000], [3, 4], none, none⟩] ∧
    plot_all (fun _ => true) [⟨[4000, 5000], [1, 2], none, none⟩,
        ⟨[5000, 6000], [3, 4], none, none⟩] "input" TitleVal.noneV none
        "strongem" none false =
      Except.ok [PlotEvent.plot "input" TitleVal.falseV,
        PlotEvent.plot "input" TitleVal.falseV, PlotEvent.xlim 4000 6000] ∧
    ([PlotEvent.plot "input" TitleVal.falseV, PlotEvent.plot "input" TitleVal.falseV,
        PlotEvent.xlim 4000 6000].getLast? =
      some (PlotEvent.xlim
        (allWavMin [⟨[4000, 5000], [1, 2], none, none⟩,
          ⟨[5000, 6000], [3, 4], none, none⟩])
        (allWavMax [⟨[4000, 5000], [1, 2], none, none⟩,
          ⟨[5000, 6000], [3, 4], none, none⟩]))) :=
  ⟨by decide, by decide, by decide, by decide, rfl,
   c6_xlim (fun _ => true) "input" TitleVal.noneV none "strongem" none false
     [⟨[4000, 5000], [1, 2], none, none⟩, ⟨[5000, 6000], [3, 4], none, none⟩]
     [PlotEvent.plot "input" TitleVal.falseV, PlotEvent.plot "input" TitleVal.falseV,
       PlotEvent.xlim 4000 6000]
     (by decide) (by decide) (by decide) (by decide) rfl⟩
